import Mathlib

/-
Shallow embedding of the NYT Article Explorer browser client
(src/unnamed/part_000: pagination, search, login, API client;
src/js/favorites.js: favorites list rendering and removal).

Modelling conventions:
- JavaScript global mutable state (`currentPage`, `jwtToken`, the
  `localStorage` entry under key 'jwtToken') is passed explicitly as
  state records and returned updated.
- Each `async` function that performs one `fetch` takes the server's
  (already-parsed) response as an extra parameter; the record it
  returns carries the observable effects of the call: the request(s)
  it issued, the state it held at the moment the request was issued
  (i.e. before the response arrived), the state after the response
  was processed, alerts shown, modals opened.
- JavaScript truthiness tests on optional string JSON fields
  (`if (data.token)`, `if (data.message)`, ...) are modelled by
  `strTruthy`: `none` and `some ""` are falsy, everything else truthy.
- `throw new Error(...)` in `loginUser` is modelled as `Except.error`
  carrying the HTTP status that the thrown message embeds.
- The DOM favorites list is modelled as the list of element ids
  present in the document.
-/

namespace NYT

/-- Truthiness of a JavaScript value that is either a string or null/undefined:
null, undefined and the empty string are falsy. -/
def strTruthy : Option String → Bool
  | none => false
  | some s => s ≠ ""

/-- JavaScript `String.prototype.trim()`: strips leading and trailing
whitespace. Modelled over the string's character list so the kernel can
evaluate it. -/
def jsTrim (s : String) : String :=
  String.mk (((s.data.dropWhile Char.isWhitespace).reverse.dropWhile
    Char.isWhitespace).reverse)

/-- The metadata object of a search response: `{current_page, prev_page, next_page}`.
`none` models JSON `null`. -/
structure PageInfo where
  current_page : Int
  prev_page : Option Int
  next_page : Option Int
  deriving DecidableEq, Repr

/-- An article as consumed by `searchArticles`. -/
structure Article where
  id : String
  title : String
  abstract : String
  url : String
  deriving DecidableEq, Repr

/-- The parsed body of `GET /articles/search`: `{articles, meta}`. -/
structure SearchResult where
  articles : List Article
  meta : PageInfo
  deriving DecidableEq, Repr

/-- The client-side pagination state: the global `currentPage` together with
the `disabled` flags of the two pagination buttons. -/
structure PagState where
  currentPage : Int
  prevDisabled : Bool
  nextDisabled : Bool
  deriving DecidableEq, Repr

/-- `updatePagination(data)` from src/unnamed/part_000 lines 65-73:
sets `currentPage = data.current_page`, disables the Previous button iff
`data.prev_page === null`, and the Next button iff `data.next_page === null`. -/
def updatePagination (st : PagState) (data : PageInfo) : PagState :=
  { st with
    currentPage := data.current_page
    prevDisabled := data.prev_page.isNone
    nextDisabled := data.next_page.isNone }

/-- Observable trace of one `searchArticles(page)` invocation.
`stateAtRequest` is the pagination state at the moment the `fetchArticles`
request is issued (nothing runs between function entry and that `await`
that could mutate it); `requests` lists the `(query, page)` arguments of
every network request the invocation issues. -/
structure SearchRun where
  stateAtRequest : PagState
  requests : List (String × Int)
  stateAfter : PagState
  validationShown : Bool
  rendered : List Article
  deriving DecidableEq, Repr

/-- `searchArticles(page)` from src/unnamed/part_000 lines 22-57.
`query` is the value read from the `searchQuery` input; `resp` is the parsed
body the server answers with (consulted only when a request is issued).
If `query.trim()` is empty it renders a validation message and returns
without any network call; otherwise it issues one `fetchArticles(query, page)`
request, feeds `data.meta` to `updatePagination` and renders `data.articles`. -/
def searchArticles (st : PagState) (query : String) (page : Int)
    (resp : SearchResult) : SearchRun :=
  if jsTrim query = "" then
    { stateAtRequest := st
      requests := []
      stateAfter := st
      validationShown := true
      rendered := [] }
  else
    { stateAtRequest := st
      requests := [(query, page)]
      stateAfter := updatePagination st resp.meta
      validationShown := false
      rendered := resp.articles }

/-- Result of `changePage(direction)`: the page number it passes to
`searchArticles` and the run of that delegated search. -/
structure ChangePageRun where
  requestedPage : Int
  run : SearchRun
  deriving DecidableEq, Repr

/-- `changePage(direction)` from src/unnamed/part_000 lines 81-90:
if `direction === 'prev'` it calls `searchArticles(currentPage - 1)`,
otherwise `searchArticles(currentPage + 1)`. No clamping is applied. -/
def changePage (st : PagState) (direction : String) (query : String)
    (resp : SearchResult) : ChangePageRun :=
  if direction = "prev" then
    { requestedPage := st.currentPage - 1
      run := searchArticles st query (st.currentPage - 1) resp }
  else
    { requestedPage := st.currentPage + 1
      run := searchArticles st query (st.currentPage + 1) resp }

/-- The `fetch` Response `ok` flag: status in the inclusive range 200-299. -/
def respOk (status : Nat) : Bool := 200 ≤ status && status ≤ 299

/-- Parsed body of `POST /login`: may or may not contain a `token` field. -/
structure LoginBody where
  token : Option String
  deriving DecidableEq, Repr

/-- An HTTP response to the login request: status code plus parsed JSON body. -/
structure LoginHttpResponse where
  status : Nat
  body : LoginBody
  deriving DecidableEq, Repr

/-- `loginUser(username, password)` from src/unnamed/part_000 lines 275-290:
if `!response.ok` it throws an Error whose message embeds `response.status`
(modelled as `Except.error status`); otherwise it returns the parsed body. -/
def loginUser (resp : LoginHttpResponse) : Except Nat LoginBody :=
  if ¬ respOk resp.status then Except.error resp.status
  else Except.ok resp.body

/-- The session state: the in-process global `jwtToken` and the persisted
`localStorage` entry under key 'jwtToken' (`none` models a missing entry). -/
structure SessionState where
  jwtToken : Option String
  storage : Option String
  deriving DecidableEq, Repr

/-- Observable outcome of one `login()` invocation. -/
structure LoginRun where
  finalState : SessionState
  alert : String
  modalHidden : Bool
  deriving DecidableEq, Repr

/-- `login()` from src/unnamed/part_000 lines 139-167: calls `loginUser`;
on a thrown error it alerts a generic message and changes nothing; on a
returned body with a truthy `token` it stores the token in the global and
in localStorage, alerts success and hides the modal; on a body without a
truthy token it alerts 'Login failed. Please try again.' and changes
nothing. -/
def login (st : SessionState) (resp : LoginHttpResponse) : LoginRun :=
  match loginUser resp with
  | Except.error _ =>
      { finalState := st
        alert := "An error occurred. Please try again."
        modalHidden := false }
  | Except.ok data =>
      if strTruthy data.token then
        let t := data.token.getD ""
        { finalState := { jwtToken := some t, storage := some t }
          alert := "Login successful!"
          modalHidden := true }
      else
        { finalState := st
          alert := "Login failed. Please try again."
          modalHidden := false }

/-- Startup initialisation of the global `jwtToken`
(src/unnamed/part_000 line 11): `localStorage.getItem('jwtToken') || null`,
so a missing entry or an empty string both yield null. -/
def initJwtToken (storage : Option String) : Option String :=
  match storage with
  | none => none
  | some s => if s = "" then none else some s

/-- The headers object built by `getAuthHeaders`. -/
structure Headers where
  contentType : String
  authorization : String
  deriving DecidableEq, Repr

/-- `getAuthHeaders()` from src/unnamed/part_000 lines 196-204: reads the
token from localStorage and returns `Authorization: Bearer <token>` when the
token is truthy, otherwise the empty string. -/
def getAuthHeaders (storage : Option String) : Headers :=
  let jwtToken := storage
  { contentType := "application/json"
    authorization :=
      if strTruthy jwtToken then "Bearer " ++ jwtToken.getD "" else "" }

/-- Structured request bodies (the argument of `JSON.stringify` in the
source), kept structural rather than serialised. -/
inductive ReqBody
  | favArticle (article_id article_title article_url : String)
  | articleId (article_id : String)
  | credentials (username password : String)
  | empty
  deriving DecidableEq, Repr

/-- An outgoing HTTP request as built by the API client functions. -/
structure HttpRequest where
  method : String
  url : String
  headers : Headers
  body : ReqBody
  deriving DecidableEq, Repr

/-- `BASE_URL` from src/unnamed/part_000 line 171. -/
def BASE_URL : String := "http://localhost:8085"

/-- The URL built by `fetchArticles(query, page)`
(src/unnamed/part_000 line 184): plain template-literal interpolation,
no URL-encoding of `query` or `page`. -/
def fetchArticlesUrl (query : String) (page : Int) : String :=
  BASE_URL ++ "/articles/search?q=" ++ query ++ "&page=" ++ toString page

/-- The request issued by `addToFavorites(article)`
(src/unnamed/part_000 lines 214-224): POST /favorites with auth headers. -/
def addToFavoritesRequest (storage : Option String)
    (article_id article_title article_url : String) : HttpRequest :=
  { method := "POST"
    url := BASE_URL ++ "/favorites"
    headers := getAuthHeaders storage
    body := ReqBody.favArticle article_id article_title article_url }

/-- The request issued by `fetchFavorites()`
(src/unnamed/part_000 lines 233-241): GET /favorites with auth headers. -/
def fetchFavoritesRequest (storage : Option String) : HttpRequest :=
  { method := "GET"
    url := BASE_URL ++ "/favorites"
    headers := getAuthHeaders storage
    body := ReqBody.empty }

/-- The request issued by `removeFromFavoritesApi(articleId)`
(src/unnamed/part_000 lines 251-263): DELETE /favorites with auth headers. -/
def removeFromFavoritesApiRequest (storage : Option String)
    (articleId : String) : HttpRequest :=
  { method := "DELETE"
    url := BASE_URL ++ "/favorites"
    headers := getAuthHeaders storage
    body := ReqBody.articleId articleId }

/-- Parsed body of a favorites mutation response: `{message}` or `{error}`
(either field may be absent). -/
structure FavResponse where
  message : Option String
  error : Option String
  deriving DecidableEq, Repr

/-- An HTTP response to a favorites call: status plus parsed body. -/
structure FavHttpResponse where
  status : Nat
  body : FavResponse
  deriving DecidableEq, Repr

/-- Return value of `addToFavorites` (src/unnamed/part_000 lines 214-224):
it calls `response.json()` unconditionally — no status check, no throw —
so the parsed body is returned whatever the status. -/
def addToFavorites (resp : FavHttpResponse) : FavResponse := resp.body

/-- Return value of `removeFromFavoritesApi`
(src/unnamed/part_000 lines 251-263): likewise returns the parsed body
unconditionally, with no status check. -/
def removeFromFavoritesApi (resp : FavHttpResponse) : FavResponse := resp.body

/-- The full client state touched by the favorites handlers. -/
structure ClientState where
  currentPage : Int
  jwtToken : Option String
  storage : Option String
  deriving DecidableEq, Repr

/-- Observable outcome of one `handleFavorite` invocation. -/
structure FavoriteRun where
  finalState : ClientState
  modalShown : Bool
  requestIssued : Bool
  alert : Option String
  deriving DecidableEq, Repr

/-- `handleFavorite(articleId, title, url)` from src/unnamed/part_000
lines 103-129: with no truthy `jwtToken` it shows the login modal and
returns (no network call); otherwise it awaits `addToFavorites` and alerts
`data.message` if truthy, else `data.error` if truthy, else a generic
message. It never writes the session or page state. -/
def handleFavorite (st : ClientState) (resp : FavHttpResponse) : FavoriteRun :=
  if ¬ strTruthy st.jwtToken then
    { finalState := st, modalShown := true, requestIssued := false
      alert := none }
  else
    let data := addToFavorites resp
    { finalState := st
      modalShown := false
      requestIssued := true
      alert := some (
        if strTruthy data.message then data.message.getD ""
        else if strTruthy data.error then data.error.getD ""
        else "Error, Please try again.") }

/-- Observable outcome of one `removeFromFavorites` invocation: the list of
element ids present in the DOM afterwards, and the alert shown. -/
structure RemoveRun where
  dom : List String
  alert : String
  deriving DecidableEq, Repr

/-- `removeFromFavorites($id)` from src/js/favorites.js lines 45-72:
awaits `removeFromFavoritesApi($id)`; if `data.message` is truthy it alerts
the message and removes the element with that id if it exists; else if
`data.error` is truthy it alerts the error; else it alerts a generic
message. `dom` is the list of element ids currently in the document. -/
def removeFromFavorites (dom : List String) (id : String)
    (resp : FavHttpResponse) : RemoveRun :=
  let data := removeFromFavoritesApi resp
  if strTruthy data.message then
    { dom := if id ∈ dom then dom.erase id else dom
      alert := data.message.getD "" }
  else if strTruthy data.error then
    { dom := dom, alert := data.error.getD "" }
  else
    { dom := dom, alert := "Error, Please try again." }

/-- C1: on an HTTP non-success status, `loginUser` fails with an error
carrying the status code and `login` leaves both the in-process token and
the persisted storage unchanged; on a successful response whose body has no
truthy token, `login` shows the 'Login failed' alert (a failure message, not
a thrown error) and stores nothing; the session state changes only when the
successful body carries a token, which is then the token stored. -/
theorem login_token_storage (st : SessionState)
    (respBad respNoTok resp : LoginHttpResponse)
    (hBad : respOk respBad.status = false)
    (hOk : respOk respNoTok.status = true)
    (hNoTok : strTruthy respNoTok.body.token = false) :
    loginUser respBad = Except.error respBad.status ∧
    (login st respBad).finalState = st ∧
    (login st respBad).alert = "An error occurred. Please try again." ∧
    (login st respNoTok).finalState = st ∧
    (login st respNoTok).alert = "Login failed. Please try again." ∧
    ((login st resp).finalState = st ∨
      ∃ t, resp.body.token = some t ∧ t ≠ "" ∧
        (login st resp).finalState = ⟨some t, some t⟩) := by
  refine ⟨by simp [loginUser, hBad], by simp [login, loginUser, hBad],
    by simp [login, loginUser, hBad],
    by simp [login, loginUser, hOk, hNoTok],
    by simp [login, loginUser, hOk, hNoTok], ?_⟩
  by_cases h1 : respOk resp.status = true
  · cases htok : resp.body.token with
    | none => left; simp [login, loginUser, h1, strTruthy, htok]
    | some s =>
      by_cases hs : s = ""
      · left; simp [login, loginUser, h1, strTruthy, htok, hs]
      · right
        exact ⟨s, rfl, hs, by simp [login, loginUser, h1, strTruthy, htok, hs]⟩
  · left; simp [login, loginUser, h1]

/-- C1 witness: a 401 login response leaves an empty session unchanged. -/
theorem login_token_storage_witness :
    respOk 401 = false ∧
    (login ⟨none, none⟩ ⟨401, ⟨none⟩⟩).finalState = ⟨none, none⟩ :=
  ⟨by decide,
    (login_token_storage ⟨none, none⟩ ⟨401, ⟨none⟩⟩ ⟨200, ⟨none⟩⟩
      ⟨200, ⟨some "tok"⟩⟩ (by decide) (by decide) (by decide)).2.1⟩

/-- C2 counterexample: the query " " is non-empty, yet a search invocation
with it issues zero network requests, refuting 'exactly one network request
is issued for every non-empty query'. -/
theorem searchArticles_nonempty_counterexample :
    " " ≠ "" ∧
    (searchArticles ⟨0, true, true⟩ " " 0 ⟨[], ⟨0, none, none⟩⟩).requests = [] := by
  exact ⟨by decide, by decide⟩

/-- C2 (amended): for every search invocation whose query is non-empty after
trimming, exactly one network request is issued, the pagination state held
when the request is issued is the entry state (currentPage is not mutated
before the response arrives), and after the response currentPage equals the
current_page received in that response. -/
theorem searchArticles_one_request_page_from_response
    (st : PagState) (query : String) (page : Int) (resp : SearchResult)
    (h : jsTrim query ≠ "") :
    (searchArticles st query page resp).requests.length = 1 ∧
    (searchArticles st query page resp).stateAtRequest = st ∧
    (searchArticles st query page resp).stateAfter.currentPage =
      resp.meta.current_page := by
  simp [searchArticles, h, updatePagination]

/-- C2 witness: a "climate" search sets currentPage to the received page 3. -/
theorem searchArticles_one_request_witness :
    jsTrim "climate" ≠ "" ∧
    (searchArticles ⟨0, true, true⟩ "climate" 0
      ⟨[], ⟨3, none, some 4⟩⟩).stateAfter.currentPage = 3 :=
  ⟨by decide,
    (searchArticles_one_request_page_from_response ⟨0, true, true⟩ "climate" 0
      ⟨[], ⟨3, none, some 4⟩⟩ (by decide)).2.2⟩

/-- C3: updatePagination sets currentPage to the received current_page,
disables the Previous control exactly when prev_page is null and the Next
control exactly when next_page is null. -/
theorem updatePagination_sets_page_and_controls (st : PagState) (data : PageInfo) :
    (updatePagination st data).currentPage = data.current_page ∧
    ((updatePagination st data).prevDisabled = true ↔ data.prev_page = none) ∧
    ((updatePagination st data).nextDisabled = true ↔ data.next_page = none) := by
  refine ⟨rfl, ?_, ?_⟩ <;> simp [updatePagination]

/-- C4: changePage with direction 'prev' delegates a search for
currentPage − 1 and with 'next' a search for currentPage + 1; no clamping is
applied, so from currentPage = 0 a 'prev' navigation requests page −1. -/
theorem changePage_offsets (st : PagState) (query : String) (resp : SearchResult) :
    (changePage st "prev" query resp).requestedPage = st.currentPage - 1 ∧
    (changePage st "next" query resp).requestedPage = st.currentPage + 1 ∧
    (st.currentPage = 0 →
      (changePage st "prev" query resp).requestedPage = -1) := by
  refine ⟨by simp [changePage], by simp [changePage], fun h => by simp [changePage, h]⟩

/-- C4 witness: from page 0, a 'prev' navigation requests page −1. -/
theorem changePage_offsets_witness :
    (changePage ⟨0, true, true⟩ "prev" "climate"
      ⟨[], ⟨0, none, none⟩⟩).requestedPage = -1 :=
  (changePage_offsets ⟨0, true, true⟩ "climate" ⟨[], ⟨0, none, none⟩⟩).2.2 rfl

/-- C5: for the favorites mutations a response body carrying an error field
(and no message) is a normal, non-exceptional outcome: the parsed body is
returned whatever the HTTP status (never a transport failure), the server's
exact error message is alerted, session/token state and the DOM are
unchanged — so removing an already-removed id a second time yields the error
alert and removes no display element; a body with neither message nor error
yields the generic 'Error, Please try again.' alert. -/
theorem favorites_error_field_outcomes
    (st : ClientState) (dom : List String) (id : String)
    (respErr respEmpty : FavHttpResponse) (e : String)
    (hTok : strTruthy st.jwtToken = true)
    (hMsg : strTruthy respErr.body.message = false)
    (hErr : respErr.body.error = some e) (he : e ≠ "")
    (hMsg2 : strTruthy respEmpty.body.message = false)
    (hErr2 : strTruthy respEmpty.body.error = false) :
    addToFavorites respErr = respErr.body ∧
    removeFromFavoritesApi respErr = respErr.body ∧
    (handleFavorite st respErr).alert = some e ∧
    (handleFavorite st respErr).finalState = st ∧
    (handleFavorite st respErr).requestIssued = true ∧
    (removeFromFavorites dom id respErr).alert = e ∧
    (removeFromFavorites dom id respErr).dom = dom ∧
    (handleFavorite st respEmpty).alert = some "Error, Please try again." ∧
    (removeFromFavorites dom id respEmpty).alert = "Error, Please try again." := by
  have hErrT : strTruthy (some e) = true := by simp [strTruthy, he]
  refine ⟨rfl, rfl, ?_, ?_, ?_, ?_, ?_, ?_, ?_⟩ <;>
    simp [handleFavorite, removeFromFavorites, addToFavorites,
      removeFromFavoritesApi, hTok, hMsg, hErr, hErrT, hMsg2, hErr2]

/-- C5 witness: a duplicate-favorite error response surfaces the server's
exact message, and a second removal of an absent id leaves the DOM intact. -/
theorem favorites_error_field_outcomes_witness :
    (handleFavorite ⟨0, some "tok", some "tok"⟩
      ⟨200, ⟨none, some "Article already in favorites"⟩⟩).alert
        = some "Article already in favorites" ∧
    (removeFromFavorites ["a1"] "a2"
      ⟨200, ⟨none, some "Article already in favorites"⟩⟩).dom = ["a1"] :=
  ⟨(favorites_error_field_outcomes ⟨0, some "tok", some "tok"⟩ ["a1"] "a2"
      ⟨200, ⟨none, some "Article already in favorites"⟩⟩ ⟨200, ⟨none, none⟩⟩
      "Article already in favorites" (by decide) (by decide) rfl (by decide)
      (by decide) (by decide)).2.2.1,
    (favorites_error_field_outcomes ⟨0, some "tok", some "tok"⟩ ["a1"] "a2"
      ⟨200, ⟨none, some "Article already in favorites"⟩⟩ ⟨200, ⟨none, none⟩⟩
      "Article already in favorites" (by decide) (by decide) rfl (by decide)
      (by decide) (by decide)).2.2.2.2.2.2.1⟩

/-- C6: a search whose query is empty or whitespace-only shows the
validation message and issues no network request; a request is issued only
when the trimmed query is non-empty. -/
theorem searchArticles_blank_query_validation
    (st : PagState) (query : String) (page : Int) (resp : SearchResult) :
    (jsTrim query = "" →
      (searchArticles st query page resp).validationShown = true ∧
      (searchArticles st query page resp).requests = []) ∧
    ((searchArticles st query page resp).requests ≠ [] → jsTrim query ≠ "") := by
  by_cases h : jsTrim query = "" <;> simp [searchArticles, h]

/-- C6 witness: a whitespace-only query makes no network call. -/
theorem searchArticles_blank_query_validation_witness :
    jsTrim "   " = "" ∧
    (searchArticles ⟨0, true, true⟩ "   " 0 ⟨[], ⟨0, none, none⟩⟩).requests = [] :=
  ⟨by decide,
    ((searchArticles_blank_query_validation ⟨0, true, true⟩ "   " 0
      ⟨[], ⟨0, none, none⟩⟩).1 (by decide)).2⟩

/-- C7: a favorite-add attempt with no truthy session token shows the login
modal and issues no network request; the add-favorite request is issued only
when a token exists. -/
theorem handleFavorite_requires_token (st : ClientState) (resp : FavHttpResponse) :
    (strTruthy st.jwtToken = false →
      (handleFavorite st resp).modalShown = true ∧
      (handleFavorite st resp).requestIssued = false) ∧
    ((handleFavorite st resp).requestIssued = true →
      strTruthy st.jwtToken = true) := by
  by_cases h : strTruthy st.jwtToken = true <;> simp [handleFavorite, h]

/-- C7 witness: with no token stored, the login modal is shown. -/
theorem handleFavorite_requires_token_witness :
    strTruthy (none : Option String) = false ∧
    (handleFavorite ⟨0, none, none⟩ ⟨200, ⟨none, none⟩⟩).modalShown = true :=
  ⟨by decide,
    ((handleFavorite_requires_token ⟨0, none, none⟩
      ⟨200, ⟨none, none⟩⟩).1 (by decide)).1⟩

/-- C8: a token stored by a successful login is written to persisted
storage, and re-initialising the in-process token from that storage
(simulated reload) yields the same token. -/
theorem login_roundtrip (st : SessionState) (resp : LoginHttpResponse)
    (t : String) (hOk : respOk resp.status = true)
    (hTok : resp.body.token = some t) (ht : t ≠ "") :
    (login st resp).finalState.storage = some t ∧
    initJwtToken (login st resp).finalState.storage = some t := by
  simp [login, loginUser, hOk, strTruthy, hTok, ht, initJwtToken]

/-- C8 witness: a login that returns token "tok" persists it, and a reload
reads back "tok". -/
theorem login_roundtrip_witness :
    respOk 200 = true ∧
    initJwtToken (login ⟨none, none⟩ ⟨200, ⟨some "tok"⟩⟩).finalState.storage
      = some "tok" :=
  ⟨by decide,
    (login_roundtrip ⟨none, none⟩ ⟨200, ⟨some "tok"⟩⟩ "tok"
      (by decide) rfl (by decide)).2⟩

/-- C9: the add-favorite, list-favorites and remove-favorite requests all
carry headers built by getAuthHeaders from the stored token: the
Authorization header is 'Bearer <token>' when a truthy token is stored and
the empty string when no token is stored. -/
theorem authenticated_requests_bearer_header
    (storage : Option String) (t aid atitle aurl : String) (ht : t ≠ "") :
    ((addToFavoritesRequest (some t) aid atitle aurl).headers.authorization
        = "Bearer " ++ t ∧
      (fetchFavoritesRequest (some t)).headers.authorization = "Bearer " ++ t ∧
      (removeFromFavoritesApiRequest (some t) aid).headers.authorization
        = "Bearer " ++ t) ∧
    (strTruthy storage = false →
      (addToFavoritesRequest storage aid atitle aurl).headers.authorization = "" ∧
      (fetchFavoritesRequest storage).headers.authorization = "" ∧
      (removeFromFavoritesApiRequest storage aid).headers.authorization = "") ∧
    ((addToFavoritesRequest storage aid atitle aurl).headers
        = getAuthHeaders storage ∧
      (fetchFavoritesRequest storage).headers = getAuthHeaders storage ∧
      (removeFromFavoritesApiRequest storage aid).headers
        = getAuthHeaders storage) := by
  refine ⟨⟨?_, ?_, ?_⟩, fun h => ⟨?_, ?_, ?_⟩, rfl, rfl, rfl⟩ <;>
    simp_all [addToFavoritesRequest, fetchFavoritesRequest,
      removeFromFavoritesApiRequest, getAuthHeaders, strTruthy, ht]

/-- C9 witness: with token "tok" stored the header is 'Bearer tok'; with no
token stored it is empty. -/
theorem authenticated_requests_bearer_header_witness :
    "tok" ≠ "" ∧
    (addToFavoritesRequest (some "tok") "a1" "T" "u").headers.authorization
      = "Bearer " ++ "tok" ∧
    (fetchFavoritesRequest none).headers.authorization = "" :=
  ⟨by decide,
    (authenticated_requests_bearer_header none "tok" "a1" "T" "u"
      (by decide)).1.1,
    ((authenticated_requests_bearer_header none "tok" "a1" "T" "u"
      (by decide)).2.1 (by decide)).2.1⟩

/-- C10: the search URL is built by direct string interpolation
BASE_URL ++ "/articles/search?q=" ++ query ++ "&page=" ++ page with no
URL-encoding; in particular a query containing '&', '=', '#' and spaces is
embedded verbatim. -/
theorem fetchArticlesUrl_interpolation (query : String) (page : Int) :
    fetchArticlesUrl query page =
      "http://localhost:8085/articles/search?q=" ++ query ++ "&page="
        ++ toString page ∧
    fetchArticlesUrl "a&b=c #d" 2
      = "http://localhost:8085/articles/search?q=a&b=c #d&page=2" :=
  ⟨rfl, by decide⟩

end NYT
